import Mathlib

/-!
Verification of the MetrajAI quantity-survey rule engine.

This file gives a shallow embedding of the deterministic core of the
repository — `calculateQuantity` and `runStructuralRules` from
`src/ruleEngine.ts`, together with the data shapes from `types.ts` — and
proves the specified properties about it.  JavaScript numbers are modelled
as rationals; `Partial<MetrajItem>` is modelled with `Option` fields, and
the JavaScript falsy-coalescing `a || d` on numbers is modelled by
`jsOr` (absent or zero yields the default).
-/

namespace MetrajAI

/-- Severity enum from `types.ts`. -/
inductive Severity where
  | CRITICAL
  | WARNING
  | INFO
  deriving DecidableEq

/-- Model of `Partial<MetrajItem>`: every field of the `MetrajItem` interface of
`types.ts`, each optional, as consumed by `calculateQuantity`. -/
structure PartialItem where
  id : Option String := none
  pozNumber : Option String := none
  description : Option String := none
  unit : Option String := none
  multiplier : Option ℚ := none
  x : Option ℚ := none
  y : Option ℚ := none
  z : Option ℚ := none
  area : Option ℚ := none
  volume : Option ℚ := none
  unitWeight : Option ℚ := none
  count : Option ℚ := none
  totalQuantity : Option ℚ := none
  calculatedQuantity : Option ℚ := none
  category : Option String := none
  notes : Option String := none
  deriving DecidableEq

/-- The fully populated `MetrajItem` interface of `types.ts` (category is a
string union in the source; we keep it as a string). -/
structure MetrajItem where
  id : String := ""
  pozNumber : String := ""
  description : String := ""
  unit : String := ""
  multiplier : ℚ := 0
  x : ℚ := 0
  y : ℚ := 0
  z : ℚ := 0
  area : ℚ := 0
  volume : ℚ := 0
  unitWeight : ℚ := 0
  count : ℚ := 0
  totalQuantity : ℚ := 0
  calculatedQuantity : ℚ := 0
  category : String := ""
  notes : Option String := none
  deriving DecidableEq

/-- A fully populated item viewed as a partial one (how `runStructuralRules`
passes its items to `calculateQuantity`). -/
def MetrajItem.calcInput (m : MetrajItem) : PartialItem :=
  { id := some m.id
    pozNumber := some m.pozNumber
    description := some m.description
    unit := some m.unit
    multiplier := some m.multiplier
    x := some m.x
    y := some m.y
    z := some m.z
    area := some m.area
    volume := some m.volume
    unitWeight := some m.unitWeight
    count := some m.count
    totalQuantity := some m.totalQuantity
    calculatedQuantity := some m.calculatedQuantity
    category := some m.category
    notes := m.notes }

/-- JavaScript `v || d` on an optional number: `undefined` and `0` are falsy
and give the default; any other number passes through. -/
def jsOr (v : Option ℚ) (d : ℚ) : ℚ :=
  match v with
  | none => d
  | some q => if q = 0 then d else q

/-- Lowercasing of a string via `toLowerCase()`, character by character (the unit strings in
scope are ASCII). -/
def lowercase (s : String) : String :=
  ⟨s.data.map Char.toLower⟩

/-- Computation `(item.unit || '').toLowerCase()`. -/
def unitOf (item : PartialItem) : String :=
  lowercase (item.unit.getD "")

/-- Rounding `Number(r.toFixed(3))`: round to 3 decimal places (ties away from zero
for the non-negative values in scope, via floor of `r*1000 + 1/2`). -/
def round3 (q : ℚ) : ℚ :=
  ((Int.floor (q * 1000 + 1 / 2) : ℤ) : ℚ) / 1000

/-- Embedding of `calculateQuantity` from `src/ruleEngine.ts`. -/
def calculateQuantity (item : PartialItem) : ℚ :=
  let x := jsOr item.x 0
  let y := jsOr item.y 0
  let z := jsOr item.z 0
  let multiplier := jsOr item.multiplier 1
  let count := jsOr item.count 1
  let unitWeight := jsOr item.unitWeight 0
  let unit := unitOf item
  let area := x * y
  let volume := x * y * z
  let result :=
    if unit = "m3" then volume
    else if unit = "m2" then area
    else if unit = "kg" ∨ unit = "ton" then
      let base := if 0 < z then volume else area
      let r := base * unitWeight
      if unit = "ton" then r / 1000 else r
    else
      if x ≠ 0 then x else if y ≠ 0 then y else if z ≠ 0 then z else 1
  round3 (result * multiplier * count)

/-- Record `ValidationResult` from `types.ts`. -/
structure ValidationResult where
  itemId : String
  severity : Severity
  message : String
  standardReference : String
  suggestedAction : String
  deriving DecidableEq

/-- The finding pushed by the missing-dimension check of
`runStructuralRules`. -/
def missingDimResult (item : MetrajItem) : ValidationResult :=
  { itemId := item.id
    severity := Severity.CRITICAL
    message := "Beton metrajında (m3) boyutlardan biri eksik (X, Y veya Z). Poz: " ++ item.pozNumber
    standardReference := "TS 500"
    suggestedAction := "Projedeki tüm geometrik boyutları kontrol edin." }

/-- The finding pushed by the calculation-mismatch check of
`runStructuralRules`. -/
def mismatchResult (item : MetrajItem) (computed : ℚ) : ValidationResult :=
  { itemId := item.id
    severity := Severity.CRITICAL
    message := "Hesaplama Uyuşmazlığı. Manuel: " ++ toString item.totalQuantity ++
      ", Sistem: " ++ toString computed ++ ". Poz: " ++ item.pozNumber
    standardReference := "Matematiksel Doğrulama"
    suggestedAction := "Manuel girilen toplam miktarı sistem hesaplamasıyla eşitleyin." }

/-- The body of the `items.forEach` loop of `runStructuralRules`: the
findings one item contributes, in push order. -/
def itemFindings (item : MetrajItem) : List ValidationResult :=
  let dimFindings :=
    if item.category = "Concrete" ∧ item.unit = "m3" then
      if item.x = 0 ∨ item.y = 0 ∨ item.z = 0 then [missingDimResult item] else []
    else []
  let computed := calculateQuantity item.calcInput
  let mismatchFindings :=
    if |computed - item.totalQuantity| > 1 / 100 then [mismatchResult item computed] else []
  dimFindings ++ mismatchFindings

/-- Embedding of `runStructuralRules` from `src/ruleEngine.ts`. -/
def runStructuralRules : List MetrajItem → List ValidationResult
  | [] => []
  | item :: rest => itemFindings item ++ runStructuralRules rest

/-- Recognise a missing-dimension finding by its fixed standard reference. -/
def isMissingDimFinding (r : ValidationResult) : Bool :=
  r.standardReference = "TS 500"

/-- Recognise a calculation-mismatch finding by its fixed standard
reference. -/
def isMismatchFinding (r : ValidationResult) : Bool :=
  r.standardReference = "Matematiksel Doğrulama"

/-- The `m3` branch of `calculateQuantity`, spelled out. -/
theorem calcQ_m3_eq (item : PartialItem) (h : unitOf item = "m3") :
    calculateQuantity item =
      round3 (jsOr item.x 0 * jsOr item.y 0 * jsOr item.z 0 *
        jsOr item.multiplier 1 * jsOr item.count 1) := by
  simp only [calculateQuantity, h]
  norm_num

/-- The fallback (linear/count) branch of `calculateQuantity`, spelled
out. -/
theorem calcQ_default_eq (item : PartialItem)
    (h3 : unitOf item ≠ "m3") (h2 : unitOf item ≠ "m2")
    (hkg : unitOf item ≠ "kg") (hton : unitOf item ≠ "ton") :
    calculateQuantity item =
      round3 ((if jsOr item.x 0 ≠ 0 then jsOr item.x 0
          else if jsOr item.y 0 ≠ 0 then jsOr item.y 0
          else if jsOr item.z 0 ≠ 0 then jsOr item.z 0 else 1) *
        jsOr item.multiplier 1 * jsOr item.count 1) := by
  simp only [calculateQuantity, h3, h2, hkg, hton, if_neg, ite_false, or_self]

/-- C1: for every item whose unit lowercases to `m3`, `calculateQuantity`
returns `x*y*z*multiplier*count` rounded to 3 decimals, with absent or falsy
x, y, z defaulting to 0 and absent or falsy multiplier and count
defaulting to 1. -/
theorem calculateQuantity_m3 (item : PartialItem) (h : unitOf item = "m3") :
    calculateQuantity item =
      round3 (jsOr item.x 0 * jsOr item.y 0 * jsOr item.z 0 *
        jsOr item.multiplier 1 * jsOr item.count 1) :=
  calcQ_m3_eq item h

/-- Concrete instance of C1: a 2×2×2 item with unit `M3` (which lowercases
to `m3`) and all other fields absent computes to 8. -/
theorem calculateQuantity_m3_witness :
    unitOf { unit := some "M3", x := some 2, y := some 2, z := some 2 } = "m3" ∧
    calculateQuantity { unit := some "M3", x := some 2, y := some 2, z := some 2 } =
      round3 (jsOr (some 2) 0 * jsOr (some 2) 0 * jsOr (some 2) 0 *
        jsOr none 1 * jsOr none 1) :=
  ⟨by decide,
   calculateQuantity_m3 { unit := some "M3", x := some 2, y := some 2, z := some 2 } (by decide)⟩

/-- The `kg` branch of `calculateQuantity`, spelled out. -/
theorem calcQ_kg_eq (item : PartialItem) (h : unitOf item = "kg") :
    calculateQuantity item =
      round3 ((if 0 < jsOr item.z 0 then jsOr item.x 0 * jsOr item.y 0 * jsOr item.z 0
          else jsOr item.x 0 * jsOr item.y 0) * jsOr item.unitWeight 0 *
        jsOr item.multiplier 1 * jsOr item.count 1) := by
  simp only [calculateQuantity, h]
  rw [if_neg (by decide : ¬ ("kg" : String) = "m3"),
    if_neg (by decide : ¬ ("kg" : String) = "m2")]
  simp only [true_or, ite_true]
  rw [if_neg (by decide : ¬ ("kg" : String) = "ton")]

/-- The `ton` branch of `calculateQuantity`, spelled out. -/
theorem calcQ_ton_eq (item : PartialItem) (h : unitOf item = "ton") :
    calculateQuantity item =
      round3 ((if 0 < jsOr item.z 0 then jsOr item.x 0 * jsOr item.y 0 * jsOr item.z 0
          else jsOr item.x 0 * jsOr item.y 0) * jsOr item.unitWeight 0 / 1000 *
        jsOr item.multiplier 1 * jsOr item.count 1) := by
  simp only [calculateQuantity, h]
  rw [if_neg (by decide : ¬ ("ton" : String) = "m3"),
    if_neg (by decide : ¬ ("ton" : String) = "m2")]
  simp only [or_true, ite_true]

/-- C2: for units lowercasing to `kg` or `ton`, the base is volume when
`z > 0` and area otherwise; the base is multiplied by `unitWeight`, divided
by 1000 only for `ton` (after the weight multiplication), then multiplied by
multiplier and count and rounded to 3 decimals; and the claim's concrete
`ton`/`kg` pair at x=y=z=2, unitWeight=500 differs exactly by a factor
of 1000. -/
theorem calculateQuantity_weight_units :
    (∀ item : PartialItem,
      (unitOf item = "kg" →
        calculateQuantity item =
          round3 ((if 0 < jsOr item.z 0 then jsOr item.x 0 * jsOr item.y 0 * jsOr item.z 0
              else jsOr item.x 0 * jsOr item.y 0) * jsOr item.unitWeight 0 *
            jsOr item.multiplier 1 * jsOr item.count 1)) ∧
      (unitOf item = "ton" →
        calculateQuantity item =
          round3 ((if 0 < jsOr item.z 0 then jsOr item.x 0 * jsOr item.y 0 * jsOr item.z 0
              else jsOr item.x 0 * jsOr item.y 0) * jsOr item.unitWeight 0 / 1000 *
            jsOr item.multiplier 1 * jsOr item.count 1))) ∧
    calculateQuantity
        { unit := some "ton", x := some 2, y := some 2, z := some 2, unitWeight := some 500 } =
      calculateQuantity
        { unit := some "kg", x := some 2, y := some 2, z := some 2, unitWeight := some 500 } / 1000 := by
  refine ⟨fun item => ⟨calcQ_kg_eq item, calcQ_ton_eq item⟩, ?_⟩
  rw [calcQ_ton_eq _ (by decide), calcQ_kg_eq _ (by decide)]
  norm_num [jsOr, round3]

/-- Concrete instance of C2: a kg item of dimensions 2×2×2 with unit weight
500 computes to 4000. -/
theorem calculateQuantity_weight_units_witness :
    calculateQuantity
        { unit := some "kg", x := some 2, y := some 2, z := some 2, unitWeight := some 500 } = 4000 :=
  ((calculateQuantity_weight_units.1
      { unit := some "kg", x := some 2, y := some 2, z := some 2, unitWeight := some 500 }).1
    (by decide)).trans (by norm_num [jsOr, round3])

/-- C6: for an unrecognized (linear/count) unit, the result is the first
non-zero of x, y, z in that order — 1 when all three are zero — times
multiplier and count, rounded to 3 decimals. -/
theorem calculateQuantity_fallback (item : PartialItem)
    (h3 : unitOf item ≠ "m3") (h2 : unitOf item ≠ "m2")
    (hkg : unitOf item ≠ "kg") (hton : unitOf item ≠ "ton") :
    calculateQuantity item =
      round3 ((if jsOr item.x 0 ≠ 0 then jsOr item.x 0
          else if jsOr item.y 0 ≠ 0 then jsOr item.y 0
          else if jsOr item.z 0 ≠ 0 then jsOr item.z 0 else 1) *
        jsOr item.multiplier 1 * jsOr item.count 1) :=
  calcQ_default_eq item h3 h2 hkg hton

/-- Concrete instance of C6: `calculateQuantity {unit:='adet', x:0, y:0, z:0}`
equals 1. -/
theorem calculateQuantity_fallback_witness :
    calculateQuantity { unit := some "adet", x := some 0, y := some 0, z := some 0 } = 1 :=
  (calculateQuantity_fallback
      { unit := some "adet", x := some 0, y := some 0, z := some 0 }
      (by decide) (by decide) (by decide) (by decide)).trans
    (by norm_num [jsOr, round3])

/-- C8: `calculateQuantity` is a pure function of exactly the seven fields
(x, y, z, multiplier, count, unitWeight, unit): two partial items agreeing
on those fields give equal results whatever their other fields hold, and
re-invocation on the same input gives the identical output. -/
theorem calculateQuantity_pure (i1 i2 : PartialItem)
    (hx : i1.x = i2.x) (hy : i1.y = i2.y) (hz : i1.z = i2.z)
    (hm : i1.multiplier = i2.multiplier) (hc : i1.count = i2.count)
    (hw : i1.unitWeight = i2.unitWeight) (hu : i1.unit = i2.unit) :
    calculateQuantity i1 = calculateQuantity i2 ∧
      calculateQuantity i1 = calculateQuantity i1 := by
  refine ⟨?_, rfl⟩
  simp only [calculateQuantity, unitOf, hx, hy, hz, hm, hc, hw, hu]

/-- Concrete instance of C8: two items agreeing on the seven calculation
fields but differing in id, category, description, totalQuantity, stored
calculatedQuantity, area and volume compute to the same value. -/
theorem calculateQuantity_pure_witness :
    calculateQuantity
        { unit := some "m2", x := some 3, y := some 4, id := some "a",
          category := some "Concrete", totalQuantity := some 99 } =
      calculateQuantity
        { unit := some "m2", x := some 3, y := some 4, description := some "other",
          area := some 7, volume := some 8, calculatedQuantity := some 1 } :=
  (calculateQuantity_pure _ _ rfl rfl rfl rfl rfl rfl rfl).1

/-- Rounding preserves non-negativity. -/
theorem round3_nonneg (q : ℚ) (h : 0 ≤ q) : 0 ≤ round3 q := by
  unfold round3
  apply div_nonneg _ (by norm_num)
  have : (0 : ℤ) ≤ Int.floor (q * 1000 + 1 / 2) := by
    apply Int.floor_nonneg.mpr
    nlinarith
  exact_mod_cast this

/-- C9: on a line item with non-negative (defaulted) numeric fields,
`calculateQuantity` returns a non-negative number that is an integer
multiple of 1/1000, i.e. rounded to 3 decimal places. -/
theorem calculateQuantity_nonneg_rounded (item : PartialItem)
    (hx : 0 ≤ jsOr item.x 0) (hy : 0 ≤ jsOr item.y 0) (hz : 0 ≤ jsOr item.z 0)
    (hm : 0 ≤ jsOr item.multiplier 1) (hc : 0 ≤ jsOr item.count 1)
    (hw : 0 ≤ jsOr item.unitWeight 0) :
    0 ≤ calculateQuantity item ∧ ∃ n : ℤ, calculateQuantity item = (n : ℚ) / 1000 := by
  constructor
  · simp only [calculateQuantity]
    apply round3_nonneg
    have hxy : 0 ≤ jsOr item.x 0 * jsOr item.y 0 := mul_nonneg hx hy
    have hvol : 0 ≤ jsOr item.x 0 * jsOr item.y 0 * jsOr item.z 0 := mul_nonneg hxy hz
    refine mul_nonneg (mul_nonneg ?_ hm) hc
    split_ifs <;>
      first
        | exact hvol
        | exact hxy
        | exact hx
        | exact hy
        | exact hz
        | exact zero_le_one
        | exact mul_nonneg hvol hw
        | exact mul_nonneg hxy hw
        | exact div_nonneg (mul_nonneg hvol hw) (by norm_num)
        | exact div_nonneg (mul_nonneg hxy hw) (by norm_num)
  · simp only [calculateQuantity, round3]
    exact ⟨_, rfl⟩

/-- Concrete instance of C9: the 2×2×2 `m3` item computes to a non-negative
multiple of 1/1000. -/
theorem calculateQuantity_nonneg_rounded_witness :
    0 ≤ calculateQuantity { unit := some "m3", x := some 2, y := some 2, z := some 2 } ∧
      ∃ n : ℤ, calculateQuantity { unit := some "m3", x := some 2, y := some 2, z := some 2 } =
        (n : ℚ) / 1000 :=
  calculateQuantity_nonneg_rounded
    { unit := some "m3", x := some 2, y := some 2, z := some 2 }
    (by norm_num [jsOr]) (by norm_num [jsOr]) (by norm_num [jsOr])
    (by norm_num [jsOr]) (by norm_num [jsOr]) (by norm_num [jsOr])

/-- The validator processes a concatenation of item lists piecewise. -/
theorem runStructural_append (l1 l2 : List MetrajItem) :
    runStructuralRules (l1 ++ l2) = runStructuralRules l1 ++ runStructuralRules l2 := by
  induction l1 with
  | nil => simp [runStructuralRules]
  | cons it rest ih => simp [runStructuralRules, ih]

/-- On a single item the validator returns exactly that item's findings. -/
theorem runStructural_singleton (item : MetrajItem) :
    runStructuralRules [item] = itemFindings item := by
  simp [runStructuralRules]

theorem missingDim_is_missingDim (item : MetrajItem) :
    isMissingDimFinding (missingDimResult item) = true := rfl

theorem missingDim_not_mismatch (item : MetrajItem) :
    isMismatchFinding (missingDimResult item) = false := rfl

theorem mismatch_is_mismatch (item : MetrajItem) (c : ℚ) :
    isMismatchFinding (mismatchResult item c) = true := rfl

theorem mismatch_not_missingDim (item : MetrajItem) (c : ℚ) :
    isMissingDimFinding (mismatchResult item c) = false := rfl

/-- C3: the validator distributes over list concatenation, and a single item
yields a CRITICAL calculation-mismatch finding exactly when the absolute
difference between the recomputed quantity and the manually entered
`totalQuantity` strictly exceeds the fixed tolerance 0.01 — for any item,
whatever its category or unit. -/
theorem runStructural_mismatch_iff :
    (∀ l1 l2 : List MetrajItem,
      runStructuralRules (l1 ++ l2) = runStructuralRules l1 ++ runStructuralRules l2) ∧
    (∀ item : MetrajItem,
      (∃ r ∈ runStructuralRules [item],
          isMismatchFinding r = true ∧ r.severity = Severity.CRITICAL) ↔
        |calculateQuantity item.calcInput - item.totalQuantity| > 1 / 100) := by
  refine ⟨runStructural_append, fun item => ?_⟩
  rw [runStructural_singleton]
  unfold itemFindings
  by_cases hq : |calculateQuantity item.calcInput - item.totalQuantity| > 1 / 100
  · simp only [hq, if_true, iff_true]
    refine ⟨mismatchResult item (calculateQuantity item.calcInput), ?_, rfl, rfl⟩
    · exact List.mem_append_right _ (List.mem_singleton_self _)
  · simp only [hq, if_false, iff_false, List.append_nil]
    rintro ⟨r, hr, hmis, _⟩
    apply hq
    split_ifs at hr with h1 h2
    · rw [List.mem_singleton] at hr
      subst hr
      simp [missingDim_not_mismatch] at hmis
    · exact absurd hr (List.not_mem_nil r)
    · exact absurd hr (List.not_mem_nil r)

/-- C4: a single item yields a CRITICAL missing-dimension finding exactly
when its category is `Concrete`, its unit is `m3`, and at least one of
x, y, z is zero. -/
theorem runStructural_missingDim_iff (item : MetrajItem) :
    (∃ r ∈ runStructuralRules [item],
        isMissingDimFinding r = true ∧ r.severity = Severity.CRITICAL) ↔
      (item.category = "Concrete" ∧ item.unit = "m3" ∧
        (item.x = 0 ∨ item.y = 0 ∨ item.z = 0)) := by
  rw [runStructural_singleton]
  unfold itemFindings
  constructor
  · rintro ⟨r, hr, hmd, _⟩
    rw [List.mem_append] at hr
    rcases hr with hr | hr
    · split_ifs at hr with h1 h2
      · exact ⟨h1.1, h1.2, h2⟩
      · exact absurd hr (List.not_mem_nil r)
      · exact absurd hr (List.not_mem_nil r)
    · split_ifs at hr
      · rw [List.mem_singleton] at hr
        subst hr
        simp [mismatch_not_missingDim] at hmd
      · exact absurd hr (List.not_mem_nil r)
  · rintro ⟨hcat, hunit, hdim⟩
    refine ⟨missingDimResult item, ?_, rfl, rfl⟩
    apply List.mem_append_left
    rw [if_pos ⟨hcat, hunit⟩, if_pos hdim]
    exact List.mem_singleton_self _

/-- The `m2` branch of `calculateQuantity`, spelled out. -/
theorem calcQ_m2_eq (item : PartialItem) (h : unitOf item = "m2") :
    calculateQuantity item =
      round3 (jsOr item.x 0 * jsOr item.y 0 *
        jsOr item.multiplier 1 * jsOr item.count 1) := by
  simp only [calculateQuantity, h]
  rw [if_neg (by decide : ¬ ("m2" : String) = "m3")]
  simp only [ite_true]

/-- An `m2` item whose manual total 10.05 differs from the computed 10 by
0.05, the mismatch example of the specification. -/
def mismItem : MetrajItem :=
  { id := "c3", pozNumber := "P3", category := "Finishing", unit := "m2",
    x := 2, y := 5, multiplier := 1, count := 1, totalQuantity := 201 / 20 }

/-- Concrete instance of C3: the 10.05-vs-10.00 item yields a CRITICAL
mismatch finding. -/
theorem runStructural_mismatch_witness :
    ∃ r ∈ runStructuralRules [mismItem],
      isMismatchFinding r = true ∧ r.severity = Severity.CRITICAL :=
  (runStructural_mismatch_iff.2 mismItem).mpr (by
    have hc : calculateQuantity mismItem.calcInput = 10 :=
      (calcQ_m2_eq _ (by decide)).trans
        (by norm_num [mismItem, MetrajItem.calcInput, jsOr, round3])
    rw [hc]
    norm_num [mismItem]
    rw [abs_of_pos (by norm_num : (0 : ℚ) < 1 / 20)]
    norm_num)

/-- The missing-dimension example of the specification: Concrete, `m3`,
x=5, y=0, z=3. -/
def missingDimItem : MetrajItem :=
  { id := "c4", pozNumber := "15.1", category := "Concrete", unit := "m3",
    x := 5, y := 0, z := 3, multiplier := 1, count := 1, totalQuantity := 0 }

/-- Concrete instance of C4: the x=5, y=0, z=3 Concrete `m3` item yields a
CRITICAL missing-dimension finding. -/
theorem runStructural_missingDim_witness :
    ∃ r ∈ runStructuralRules [missingDimItem],
      isMissingDimFinding r = true ∧ r.severity = Severity.CRITICAL :=
  (runStructural_missingDim_iff missingDimItem).mpr ⟨rfl, rfl, Or.inr (Or.inl rfl)⟩

/-- An item failing both checks: Concrete, `m3`, a zero dimension, and a
manual total far from the recomputed quantity. -/
def concreteBoth : MetrajItem :=
  { id := "both", pozNumber := "15.150.1001", category := "Concrete", unit := "m3",
    x := 0, y := 2, z := 2, multiplier := 1, count := 1, totalQuantity := 5 }

theorem itemFindings_concreteBoth :
    itemFindings concreteBoth =
      [missingDimResult concreteBoth,
        mismatchResult concreteBoth (calculateQuantity concreteBoth.calcInput)] := by
  have hc : calculateQuantity concreteBoth.calcInput = 0 :=
    (calcQ_m3_eq _ (by decide)).trans
      (by norm_num [concreteBoth, MetrajItem.calcInput, jsOr, round3])
  simp only [itemFindings]
  rw [if_pos (⟨rfl, rfl⟩ : concreteBoth.category = "Concrete" ∧ concreteBoth.unit = "m3"),
    if_pos (Or.inl rfl : concreteBoth.x = 0 ∨ concreteBoth.y = 0 ∨ concreteBoth.z = 0),
    if_pos (by rw [hc]; norm_num [concreteBoth])]
  rfl

/-- C7: findings preserve the input item order (the validator distributes
over concatenation), within one item every missing-dimension finding
precedes every mismatch finding, and both checks can fire for the same
item. -/
theorem runStructural_ordering :
    (∀ l1 l2 : List MetrajItem,
      runStructuralRules (l1 ++ l2) = runStructuralRules l1 ++ runStructuralRules l2) ∧
    (∀ item : MetrajItem,
      runStructuralRules [item] =
        (runStructuralRules [item]).filter isMissingDimFinding ++
          (runStructuralRules [item]).filter isMismatchFinding) ∧
    (∃ item : MetrajItem,
      ((runStructuralRules [item]).filter isMissingDimFinding).length = 1 ∧
        ((runStructuralRules [item]).filter isMismatchFinding).length = 1) := by
  refine ⟨runStructural_append, fun item => ?_, concreteBoth, ?_, ?_⟩
  · rw [runStructural_singleton]
    simp only [itemFindings]
    split_ifs <;>
      simp [List.filter, missingDim_is_missingDim, missingDim_not_mismatch,
        mismatch_is_mismatch, mismatch_not_missingDim]
  · rw [runStructural_singleton, itemFindings_concreteBoth]
    simp [List.filter, missingDim_is_missingDim, missingDim_not_mismatch,
      mismatch_is_mismatch, mismatch_not_missingDim]
  · rw [runStructural_singleton, itemFindings_concreteBoth]
    simp [List.filter, missingDim_is_missingDim, missingDim_not_mismatch,
      mismatch_is_mismatch, mismatch_not_missingDim]

/-- Any finding an item contributes is one of the two fixed records. -/
theorem itemFindings_cases (it : MetrajItem) (r : ValidationResult)
    (hr : r ∈ itemFindings it) :
    r = missingDimResult it ∨ r = mismatchResult it (calculateQuantity it.calcInput) := by
  unfold itemFindings at hr
  rw [List.mem_append] at hr
  rcases hr with hr | hr
  · split_ifs at hr with h1 h2
    · exact Or.inl (List.mem_singleton.mp hr)
    · exact absurd hr (List.not_mem_nil r)
    · exact absurd hr (List.not_mem_nil r)
  · split_ifs at hr with h
    · exact Or.inr (List.mem_singleton.mp hr)
    · exact absurd hr (List.not_mem_nil r)

/-- One item contributes at most two findings. -/
theorem itemFindings_length (it : MetrajItem) : (itemFindings it).length ≤ 2 := by
  simp only [itemFindings]
  split_ifs <;> simp

/-- C10: every finding is CRITICAL and carries the id of some input item,
and the output has at most twice as many entries as the input. -/
theorem runStructural_invariants (items : List MetrajItem) :
    (∀ r ∈ runStructuralRules items,
      r.severity = Severity.CRITICAL ∧ ∃ it ∈ items, r.itemId = it.id) ∧
    (runStructuralRules items).length ≤ 2 * items.length := by
  induction items with
  | nil => simp [runStructuralRules]
  | cons it rest ih =>
    constructor
    · intro r hr
      rw [show runStructuralRules (it :: rest) =
          itemFindings it ++ runStructuralRules rest from rfl,
        List.mem_append] at hr
      rcases hr with hr | hr
      · rcases itemFindings_cases it r hr with h | h <;> subst h
        · exact ⟨rfl, it, List.mem_cons_self it rest, rfl⟩
        · exact ⟨rfl, it, List.mem_cons_self it rest, rfl⟩
      · obtain ⟨hs, it', hit', hid⟩ := ih.1 r hr
        exact ⟨hs, it', List.mem_cons_of_mem _ hit', hid⟩
    · rw [show runStructuralRules (it :: rest) =
          itemFindings it ++ runStructuralRules rest from rfl,
        List.length_append, List.length_cons]
      have h1 := itemFindings_length it
      have h2 := ih.2
      omega

/-- Concrete instance of C10: at a single bad item the theorem yields the
CRITICAL severity, the id linkage and the length bound. -/
theorem runStructural_invariants_witness :
    ((missingDimResult concreteBoth).severity = Severity.CRITICAL ∧
      ∃ it ∈ [concreteBoth], (missingDimResult concreteBoth).itemId = it.id) ∧
    (runStructuralRules [concreteBoth]).length ≤ 2 * [concreteBoth].length :=
  ⟨(runStructural_invariants [concreteBoth]).1 (missingDimResult concreteBoth)
      (by rw [runStructural_singleton, itemFindings_concreteBoth]
          exact List.mem_cons_self _ _),
    (runStructural_invariants [concreteBoth]).2⟩

/-- A Concrete item with uppercase unit `M3` and a zero dimension. -/
def upperCaseItem : MetrajItem :=
  { id := "u1", pozNumber := "P1", category := "Concrete", unit := "M3",
    x := 0, y := 1, z := 1, multiplier := 1, count := 1, totalQuantity := 0 }

/-- The same item with unit written in lowercase. -/
def lowerCaseItem : MetrajItem := { upperCaseItem with unit := "m3" }

/-- C5 fails on the code: `runStructuralRules` compares the unit
case-sensitively, so the missing-dimension check does not fire for a
Concrete item with unit `M3` and a zero dimension, while it does for the
identical item with unit `m3`. -/
theorem unit_case_sensitivity_cex :
    (runStructuralRules [upperCaseItem] = [] ∧
      runStructuralRules [lowerCaseItem] ≠ []) ∧
      runStructuralRules [upperCaseItem] ≠ runStructuralRules [lowerCaseItem] := by
  have main : runStructuralRules [upperCaseItem] = [] ∧
      runStructuralRules [lowerCaseItem] ≠ [] := ?_
  · exact ⟨main, fun he => main.2 (he ▸ main.1)⟩
  constructor
  · have hc : calculateQuantity upperCaseItem.calcInput = 0 :=
      (calcQ_m3_eq _ (by decide)).trans
        (by norm_num [upperCaseItem, MetrajItem.calcInput, jsOr, round3])
    rw [runStructural_singleton]
    simp only [itemFindings]
    rw [if_neg (by decide : ¬(upperCaseItem.category = "Concrete" ∧ upperCaseItem.unit = "m3")),
      hc]
    norm_num [upperCaseItem]
  · rw [runStructural_singleton]
    simp only [itemFindings]
    rw [if_pos (⟨rfl, rfl⟩ : lowerCaseItem.category = "Concrete" ∧ lowerCaseItem.unit = "m3"),
      if_pos (Or.inl rfl : lowerCaseItem.x = 0 ∨ lowerCaseItem.y = 0 ∨ lowerCaseItem.z = 0)]
    simp

/-- C5 amended: `calculateQuantity` alone is case-insensitive in the unit
(`M3` behaves as `m3`), while the missing-dimension check of
`runStructuralRules` never fires for an item whose unit is the uppercase
`M3`. -/
theorem calc_case_insensitive_amended :
    (∀ item : PartialItem,
      calculateQuantity { item with unit := some "M3" } =
        calculateQuantity { item with unit := some "m3" }) ∧
    (∀ item : MetrajItem, item.unit = "M3" →
      (runStructuralRules [item]).filter isMissingDimFinding = []) := by
  constructor
  · intro item
    rfl
  · intro item h
    rw [runStructural_singleton]
    simp only [itemFindings]
    rw [if_neg fun hcond => absurd (h.symm.trans hcond.2) (by decide)]
    split_ifs with hq
    · simp [List.filter, mismatch_not_missingDim]
    · rfl

/-- Concrete instance of the amended C5. -/
theorem calc_case_insensitive_witness :
    calculateQuantity { ({ x := some 2 } : PartialItem) with unit := some "M3" } =
      calculateQuantity { ({ x := some 2 } : PartialItem) with unit := some "m3" } ∧
    (runStructuralRules [upperCaseItem]).filter isMissingDimFinding = [] :=
  ⟨calc_case_insensitive_amended.1 { x := some 2 },
    calc_case_insensitive_amended.2 upperCaseItem rfl⟩

end MetrajAI
